import Mathlib

/-!
Verification of the AgentCodeCraft frontend (TypeScript/React) against its
natural-language specification.

The repository ships the dashboard UI only: wire types
(`src/api/types.ts`), react-query hooks (`src/api/hooks.ts`), and pages
(`NewRunPage`, `RunDetailPage`, `RunTable`).  Those parts are embedded
directly from the source.  The backend engine (orchestrator, policy
loader, compliance scorer, transform adapter) is absent from the source
tree; where a claim depends on it, the missing component is modelled from
the spec and the definition's doc comment says so.
-/

namespace ACC

/-- Embeds `RunStatus` of `src/api/types.ts`. -/
inductive RunStatus where
  | queued
  | running
  | done
  | failed
deriving DecidableEq, Repr

/-- Embeds the severity union `'low' | 'medium' | 'high'` of `Finding` in
`src/api/types.ts`. -/
inductive Severity where
  | low
  | medium
  | high
deriving DecidableEq, Repr

/-- Embeds the finding status union `'open' | 'fixed' | 'ignored'` of
`src/api/types.ts` (`open` is a Lean keyword, hence the underscore). -/
inductive FindingStatus where
  | open_
  | fixed
  | ignored
deriving DecidableEq, Repr

/-- Embeds the artifact type union of `src/api/types.ts`. -/
inductive ArtifactType where
  | report_html
  | report_json
  | patch
  | log
deriving DecidableEq, Repr

/-- Embeds the language union `'python' | 'terraform'` of
`StartRefactorPayload` in `src/api/types.ts`. -/
inductive Language where
  | python
  | terraform
deriving DecidableEq, Repr

/-- Embeds the mode union `'auto' | 'suggest'` of `StartRefactorPayload`. -/
inductive Mode where
  | auto
  | suggest
deriving DecidableEq, Repr

/-- Embeds `Finding` of `src/api/types.ts`; `evidence` is a
`Record<string, unknown>`, modelled as an association list. -/
structure Finding where
  finding_id : String
  run_id : String
  rule_id : String
  file_path : String
  line : Nat
  severity : Severity
  status : FindingStatus
  evidence : List (String × String)
deriving DecidableEq, Repr

/-- Embeds `Metric` of `src/api/types.ts`; `number | null` becomes
`Option ℚ`. -/
structure Metric where
  metric_id : String
  run_id : String
  name : String
  before : Option ℚ
  after : Option ℚ
deriving DecidableEq, Repr

/-- Embeds `Artifact` of `src/api/types.ts`. -/
structure Artifact where
  artifact_id : String
  run_id : String
  type : ArtifactType
  uri : String
  checksum : String
  created_at : String
deriving DecidableEq, Repr

/-- Embeds `RunDetail` of `src/api/types.ts` with the `RunSummary` fields
it extends, flattened; `user_id?: string` becomes `Option String`,
`compliance_score: number | null` becomes `Option ℚ`,
`finished_at: string | null` becomes `Option String`. -/
structure RunDetail where
  run_id : String
  user_id : Option String
  status : RunStatus
  language : String
  model_version : String
  compliance_score : Option ℚ
  started_at : String
  finished_at : Option String
  findings : List Finding
  metrics : List Metric
  artifacts : List Artifact
deriving DecidableEq, Repr

/-- Embeds the file entries of `StartRefactorPayload.files` in
`src/api/types.ts`. -/
structure FileEntry where
  path : String
  content : String
deriving DecidableEq, Repr

/-- Embeds `StartRefactorPayload` of `src/api/types.ts`. -/
structure StartRefactorPayload where
  language : Language
  mode : Mode
  run_tests : Bool
  files : List FileEntry
  policy_ids : List String
deriving DecidableEq, Repr

/-- Embeds the `refetchInterval` callback of `useRun` in
`src/api/hooks.ts`: no data yet returns 2000; with data, `queued` or
`running` returns 2000, otherwise `false` (modelled as `none`: polling
off). -/
def refetchInterval (data : Option RunDetail) : Option Nat :=
  match data with
  | none => some 2000
  | some d =>
    if d.status = RunStatus.queued ∨ d.status = RunStatus.running then some 2000
    else none

/-- Embeds JavaScript `Math.round` on the rationals used by the render
code: round half toward positive infinity, i.e. `⌊x + 1/2⌋`.  Written on
numerator and denominator with floor division so that it evaluates in the
kernel; `jsRound_eq_floor` below proves it equal to `⌊x + 1/2⌋`
(`x + 1/2 = (2 num + den) / (2 den)` with a positive denominator). -/
def jsRound (x : ℚ) : Int :=
  (2 * x.num + (x.den : Int)).fdiv (2 * (x.den : Int))

/-- Embeds the compliance-score cell of `RunTable.tsx` (and the identical
expression in `RunDetailPage.tsx`):
`run.compliance_score != null ? Math.round(run.compliance_score * 100) + "%" : "—"`. -/
def scoreCell (compliance_score : Option ℚ) : String :=
  match compliance_score with
  | some s => toString (jsRound (s * 100)) ++ "%"
  | none => "—"

/-- Embeds the duration cell of `RunDetailPage.tsx`:
`run.finished_at ? Math.round((Date(finished).getTime() - Date(started).getTime())/1000) + " s" : "In progress"`.
Timestamps are taken after `getTime`, as epoch milliseconds. -/
def durationCell (started_at : Int) (finished_at : Option Int) : String :=
  match finished_at with
  | some f => toString (jsRound (((f : ℚ) - (started_at : ℚ)) / 1000)) ++ " s"
  | none => "In progress"

/-- Embeds `handleStart` of `NewRunPage` (both variants):
`if (!files.length || !selectedPolicyIds.length) return;` and otherwise a
POST of the payload; `none` means no request is issued. -/
def handleStart (files : List FileEntry) (selectedPolicyIds : List String)
    (language : Language) (mode : Mode) (runTests : Bool) :
    Option StartRefactorPayload :=
  if files.length = 0 ∨ selectedPolicyIds.length = 0 then none
  else some
    { language := language
      mode := mode
      run_tests := runTests
      files := files
      policy_ids := selectedPolicyIds }

/-- The field names of `RunSummary` in `src/api/types.ts`, in declaration
order. -/
def runSummaryFields : List String :=
  ["run_id", "user_id", "status", "language", "model_version",
   "compliance_score", "started_at", "finished_at"]

/-- The Run field names stated by spec section 3 (the claimed wire
contract), for comparison with `runSummaryFields`. -/
def specRunFields : List String :=
  ["run_id", "status", "language", "model_version",
   "compliance_score", "started_at", "finished_at"]

/-- The field names of `RefactorRequestPayload` in `src/api/types.ts`. -/
def refactorRequestFields : List String :=
  ["user_id", "user_name", "code", "language", "policy_profile_id",
   "repo", "branch", "file_path"]

/-- The field names of `RefactorResult` in `src/api/types.ts`. -/
def refactorResultFields : List String :=
  ["session", "suggestions", "compliance", "original_code",
   "refactored_code", "violations"]

/-- The field names of `ComplianceSummary` in `src/api/types.ts`. -/
def complianceSummaryFields : List String :=
  ["policy_score", "complexity_delta", "test_pass_rate", "latency_ms",
   "token_usage"]

/-- The Compliance Summary components named by spec section 4.4, for
comparison with `complianceSummaryFields`. -/
def specComplianceSummaryFields : List String :=
  ["policy_score", "complexity_delta", "test_pass_rate", "latency_ms",
   "token_usage"]

/-- The components the spec says the legacy synchronous result carries
inline, for comparison with `refactorResultFields`. -/
def specRefactorResultRequired : List String :=
  ["compliance", "suggestions", "violations", "original_code",
   "refactored_code"]

/-- The field names of `ImportPolicyResponse` in `src/api/types.ts`. -/
def importPolicyResponseFields : List String :=
  ["name", "policy_profile_id"]

/-- HTTP method of an embedded API call. -/
inductive HttpMethod where
  | get
  | post
deriving DecidableEq, Repr

/-- An embedded API call: method and path. -/
structure ApiCall where
  method : HttpMethod
  path : String
deriving DecidableEq, Repr

/-- Embeds the single request performed by `useRefactor` in
`src/api/hooks.ts`: one `apiClient.post` to `/refactor`, whose response
is returned directly (a mutation, not a polling query). -/
def useRefactorCall : ApiCall :=
  { method := HttpMethod.post, path := "/refactor" }

/-- Modelled from the spec: severity weights of the Compliance Scorer
(section 4.4), `high = 3, medium = 2, low = 1`; the scorer itself is not
in the source tree. -/
def severityWeight : Severity → ℚ
  | Severity.high => 3
  | Severity.medium => 2
  | Severity.low => 1

/-- Modelled from the spec: the weighted violation count of a scan,
the sum of the severity weights of its Findings. -/
def findingsWeight (fs : List Severity) : ℚ :=
  (fs.map severityWeight).sum

/-- Modelled from the spec: the Compliance Scorer's
`policy_score = 1 − (after_weight / before_weight)` when
`before_weight > 0`, else `1.0` (section 4.4); the scorer is not in the
source tree. -/
def policy_score (before after : List Severity) : ℚ :=
  if 0 < findingsWeight before then
    1 - findingsWeight after / findingsWeight before
  else 1

/-- Modelled from the spec: the persisted Run record mutated by the
Refactor Orchestrator (section 3), which is not in the source tree.
Timestamps are epoch milliseconds. -/
structure RunM where
  run_id : Nat
  status : RunStatus
  language : String
  model_version : String
  compliance_score : Option ℚ
  started_at : Int
  finished_at : Option Int
deriving DecidableEq, Repr

/-- Modelled from the spec: the Run a successful `submit` creates —
`queued`, no score, no finish time (sections 4.5 and 3). -/
def initialRun (id : Nat) (lang mv : String) (t : Int) : RunM :=
  { run_id := id
    status := RunStatus.queued
    language := lang
    model_version := mv
    compliance_score := none
    started_at := t
    finished_at := none }

/-- Modelled from the spec: the Orchestrator's transitions
`queued → running → «done | failed»` (section 4.5); `done` sets the score
and finish time, `failed` sets the finish time only, and no constructor
leaves `done` or `failed`. -/
inductive RunStep : RunM → RunM → Prop where
  | start (r : RunM) :
      r.status = RunStatus.queued →
      RunStep r { r with status := RunStatus.running }
  | finish (r : RunM) (score : ℚ) (t : Int) :
      r.status = RunStatus.running →
      RunStep r { r with
        status := RunStatus.done
        compliance_score := some score
        finished_at := some t }
  | fail (r : RunM) (t : Int) :
      r.status = RunStatus.running →
      RunStep r { r with status := RunStatus.failed, finished_at := some t }

/-- The Run record invariant of spec section 3: `finished_at` set iff the
status is terminal, `compliance_score` set iff the status is `done`. -/
def RunWF (r : RunM) : Prop :=
  (r.finished_at ≠ none ↔ (r.status = RunStatus.done ∨ r.status = RunStatus.failed))
  ∧ (r.compliance_score ≠ none ↔ r.status = RunStatus.done)

/-- Position of a status along `queued → running → terminal`; both
terminal statuses rank 2. -/
def statusRank : RunStatus → Nat
  | RunStatus.queued => 0
  | RunStatus.running => 1
  | RunStatus.done => 2
  | RunStatus.failed => 2

/-- Runs reachable from a freshly submitted Run by Orchestrator steps. -/
inductive RunReachable : RunM → Prop where
  | init (id : Nat) (lang mv : String) (t : Int) :
      RunReachable (initialRun id lang mv t)
  | step (r rr : RunM) : RunReachable r → RunStep r rr → RunReachable rr

/-- Modelled from the spec: a rule entry of a policy document
(section 4.1); the Policy Loader/Validator is not in the source tree. -/
structure RuleDoc where
  key : String
  description : String
  category : String
  expression : String
  severity : Severity
  auto_fixable : Bool
deriving DecidableEq, Repr

/-- Modelled from the spec: a policy document, a `profile` block and a
`rules` list (sections 4.1 and 6). -/
structure PolicyDocument where
  name : String
  domain : String
  version : String
  rules : List RuleDoc
deriving DecidableEq, Repr

/-- Modelled from the spec: per-rule validation of section 4.1 — a
non-empty `key` and a compilable `expression` (compilability modelled as
non-emptiness of the pattern text). -/
def ruleValid (r : RuleDoc) : Bool :=
  !r.key.isEmpty && !r.expression.isEmpty

/-- Modelled from the spec: a policy document is valid when every rule
passes validation (all-or-nothing import, section 4.1). -/
def validateDoc (d : PolicyDocument) : Bool :=
  d.rules.all ruleValid

/-- Modelled from the spec: a stored PolicyProfile (section 3); ids are
modelled as naturals generated by the store. -/
structure PolicyProfileM where
  policy_profile_id : Nat
  name : String
  language : String
  version : String
  rules : List RuleDoc
  created_at : Int
deriving DecidableEq, Repr

/-- Modelled from the spec: the `{policy_profile_id, name}` import
response of section 4.1 (its wire twin is `ImportPolicyResponse` in
`src/api/types.ts`). -/
structure ImportResponseM where
  policy_profile_id : Nat
  name : String
deriving DecidableEq, Repr

/-- A natural strictly larger than every element of the list: the fresh
id generator of the modelled store. -/
def freshNat (l : List Nat) : Nat :=
  l.foldr max 0 + 1

/-- Modelled from the spec: the Policy Loader's import (section 4.1) —
on a valid document, append a new profile under a freshly generated id
and return `{policy_profile_id, name}`; otherwise a `ValidationError`
and no profile is created. -/
def importPolicy (store : List PolicyProfileM) (doc : PolicyDocument)
    (t : Int) : Except String (List PolicyProfileM × ImportResponseM) :=
  if validateDoc doc then
    let pid := freshNat (store.map (fun p => p.policy_profile_id))
    Except.ok
      (store ++ [{ policy_profile_id := pid
                   name := doc.name
                   language := doc.domain
                   version := doc.version
                   rules := doc.rules
                   created_at := t }],
       { policy_profile_id := pid, name := doc.name })
  else Except.error "ValidationError"

/-- Modelled from the spec: the submit payload the Orchestrator receives
(section 4.5); policy ids refer to the modelled store's natural ids. -/
structure SubmitPayload where
  language : Language
  mode : Mode
  run_tests : Bool
  files : List FileEntry
  policy_ids : List Nat
deriving DecidableEq, Repr

/-- The wire spelling of a language. -/
def languageStr : Language → String
  | Language.python => "python"
  | Language.terraform => "terraform"

/-- Modelled from the spec: `submit` validates that `files` is non-empty
and that the selected `policy_ids` are non-empty and resolve to existing
profiles; only then is a Run created, in `queued` (section 4.5); the
Orchestrator is not in the source tree. -/
def submit (catalog : List PolicyProfileM) (p : SubmitPayload)
    (fid : Nat) (t : Int) : Except String RunM :=
  if p.files.isEmpty then
    Except.error "ValidationError: files must be non-empty"
  else if p.policy_ids.isEmpty then
    Except.error "ValidationError: policy_ids must be non-empty"
  else if p.policy_ids.all
      (fun pid => catalog.any (fun prof => prof.policy_profile_id == pid)) then
    Except.ok (initialRun fid (languageStr p.language) "default" t)
  else
    Except.error "NotFoundError: unknown policy id"

/-- Modelled from the spec: whitespace normalization performed by the
deterministic stub Transform Adapter (section 4.3). -/
def normalizeWhitespace (code : String) : String :=
  String.intercalate "\n" ((code.splitOn "\n").map String.trim)

/-- Modelled from the spec: a Suggestion of the pipeline output
(section 3); its wire twin is `Suggestion` in `src/api/types.ts`. -/
structure SuggestionM where
  suggestion_id : String
  file_path : String
  start_line : Nat
  end_line : Nat
  original_code : String
  proposed_code : String
  rationale : String
  confidence_score : ℚ
deriving DecidableEq, Repr

/-- Modelled from the spec: the deterministic stub Transform Adapter
(section 4.3) — normalizes whitespace, makes no semantic change, and
emits one full-confidence Suggestion per Finding; the adapter
implementations are not in the source tree. -/
def stubPropose (code : String) (findings : List Finding) :
    String × List SuggestionM :=
  (normalizeWhitespace code,
   findings.map (fun f =>
     { suggestion_id := f.finding_id
       file_path := f.file_path
       start_line := f.line
       end_line := f.line
       original_code := code
       proposed_code := normalizeWhitespace code
       rationale := "stub: normalize whitespace"
       confidence_score := 1 }))

/-- A concrete `RunDetail` with a chosen status, used by witnesses. -/
def sampleDetail (s : RunStatus) : RunDetail :=
  { run_id := "run-1"
    user_id := none
    status := s
    language := "python"
    model_version := "gpt-stub"
    compliance_score := none
    started_at := "2026-01-01T00:00:00Z"
    finished_at := none
    findings := []
    metrics := []
    artifacts := [] }

/-- A concrete freshly submitted Run, used by witnesses. -/
def sampleRun0 : RunM := initialRun 1 "python" "gpt-stub" 0

/-- `sampleRun0` after the `queued → running` step. -/
def sampleRun1 : RunM := { sampleRun0 with status := RunStatus.running }

/-- `sampleRun1` after the `running → done` step. -/
def sampleRun2 : RunM :=
  { sampleRun1 with
    status := RunStatus.done
    compliance_score := some 1
    finished_at := some 5000 }

/-- A concrete valid policy document, used by witnesses. -/
def sampleDoc : PolicyDocument :=
  { name := "python-security"
    domain := "python"
    version := "1.0"
    rules := [{ key := "no_eval"
                description := "do not call eval"
                category := "security"
                expression := "eval"
                severity := Severity.high
                auto_fixable := false }] }

/-- A concrete stored profile, used by witnesses. -/
def sampleProfile : PolicyProfileM :=
  { policy_profile_id := 1
    name := "python-security"
    language := "python"
    version := "1.0"
    rules := sampleDoc.rules
    created_at := 0 }

/-- A concrete Finding, used by witnesses. -/
def sampleFinding : Finding :=
  { finding_id := "f-1"
    run_id := "run-1"
    rule_id := "no_eval"
    file_path := "example.py"
    line := 3
    severity := Severity.high
    status := FindingStatus.open_
    evidence := [] }

/-- A concrete file entry, used by witnesses. -/
def sampleFile : FileEntry :=
  { path := "example.py", content := "print(1)" }

/-- The Suggestion the stub adapter emits for `sampleFinding` on the code
`"x = 1"`, used by witnesses. -/
def sampleSuggestion : SuggestionM :=
  { suggestion_id := "f-1"
    file_path := "example.py"
    start_line := 3
    end_line := 3
    original_code := "x = 1"
    proposed_code := normalizeWhitespace "x = 1"
    rationale := "stub: normalize whitespace"
    confidence_score := 1 }

/-- A concrete valid submit payload against a catalog containing
`sampleProfile`, used by witnesses. -/
def samplePayload : SubmitPayload :=
  { language := Language.python
    mode := Mode.suggest
    run_tests := true
    files := [sampleFile]
    policy_ids := [1] }

/-- A concrete submit payload whose policy id 2 resolves to no profile,
used by witnesses. -/
def sampleUnresolvedPayload : SubmitPayload :=
  { language := Language.python
    mode := Mode.suggest
    run_tests := true
    files := [sampleFile]
    policy_ids := [2] }

/- ### Theorems -/

/-- Sanity check of the embedding of `Math.round`: `jsRound` is
`⌊x + 1/2⌋`. -/
theorem jsRound_eq_floor (x : ℚ) : jsRound x = ⌊x + 1 / 2⌋ := by
  have h1 : x + 1 / 2 =
      ((2 * x.num + (x.den : Int) : Int) : ℚ) / ((2 * x.den : ℕ) : ℚ) := by
    conv_lhs => rw [← Rat.num_div_den x]
    push_cast
    field_simp
    ring
  rw [h1, Rat.floor_intCast_div_natCast, jsRound,
    Int.fdiv_eq_ediv _ (by positivity)]
  push_cast
  ring_nf

/-- A rendered percentage never collides with the null placeholder. -/
theorem append_percent_ne_emdash (s : String) : s ++ "%" ≠ "—" := by
  intro h
  have h2 : (s ++ "%").data = "—".data := by rw [h]
  rw [String.data_append] at h2
  have h3 : s.data.length + ("%".data).length = ("—".data).length := by
    rw [← List.length_append, h2]
  have h4 : s.data = [] := by
    have h5 : s.data.length = 0 := by
      have e1 : ("%".data).length = 1 := by decide
      have e2 : ("—".data).length = 1 := by decide
      omega
    exact List.length_eq_zero.mp h5
  rw [h4] at h2
  simp at h2

/-- A rendered duration never collides with the in-progress placeholder. -/
theorem append_s_ne_in_progress (t : String) : t ++ " s" ≠ "In progress" := by
  intro h
  have h2 : (t ++ " s").data = "In progress".data := by rw [h]
  rw [String.data_append] at h2
  have h6 : "In progress".data = "In progre".data ++ "ss".data := by decide
  rw [h6] at h2
  have h7 := (List.append_inj' h2 (by decide)).2
  exact absurd h7 (by decide)

/-- C1: for every run observed via `useRun`, the `refetchInterval`
callback returns the fixed 2000 ms interval while the status is `queued`
or `running`, returns `false` (no further polling) once the status is
`done` or `failed`, and never returns any interval other than 2000 ms. -/
theorem useRun_polls_fixed_interval (d : RunDetail) (x : Option RunDetail)
    (i : Nat) :
    (d.status = RunStatus.queued ∨ d.status = RunStatus.running →
      refetchInterval (some d) = some 2000)
    ∧ (d.status = RunStatus.done ∨ d.status = RunStatus.failed →
      refetchInterval (some d) = none)
    ∧ (refetchInterval x = some i → i = 2000) := by
  refine ⟨fun h => ?_, fun h => ?_, fun h => ?_⟩
  · simp only [refetchInterval]
    rw [if_pos h]
  · rcases h with h | h <;> simp [refetchInterval, h]
  · cases x with
    | none =>
      simp only [refetchInterval, Option.some.injEq] at h
      exact h.symm
    | some e =>
      by_cases hc : e.status = RunStatus.queued ∨ e.status = RunStatus.running
      · simp only [refetchInterval, if_pos hc, Option.some.injEq] at h
        exact h.symm
      · rw [refetchInterval, if_neg hc] at h
        exact Option.noConfusion h

/-- Witness for C1 at concrete runs in each status. -/
theorem useRun_polls_fixed_interval_witness :
    refetchInterval (some (sampleDetail RunStatus.queued)) = some 2000
    ∧ refetchInterval (some (sampleDetail RunStatus.running)) = some 2000
    ∧ refetchInterval (some (sampleDetail RunStatus.done)) = none
    ∧ refetchInterval (some (sampleDetail RunStatus.failed)) = none
    ∧ 2000 = 2000 :=
  ⟨(useRun_polls_fixed_interval (sampleDetail RunStatus.queued) none 0).1
      (Or.inl rfl),
   (useRun_polls_fixed_interval (sampleDetail RunStatus.running) none 0).1
      (Or.inr rfl),
   (useRun_polls_fixed_interval (sampleDetail RunStatus.done) none 0).2.1
      (Or.inl rfl),
   (useRun_polls_fixed_interval (sampleDetail RunStatus.failed) none 0).2.1
      (Or.inr rfl),
   (useRun_polls_fixed_interval (sampleDetail RunStatus.queued)
      (some (sampleDetail RunStatus.queued)) 2000).2.2 rfl⟩

/-- A freshly submitted Run satisfies the Run invariant. -/
theorem runWF_initial (id : Nat) (lang mv : String) (t : Int) :
    RunWF (initialRun id lang mv t) := by
  simp [RunWF, initialRun]

/-- Every Orchestrator step starts from a non-terminal status. -/
theorem runStep_not_terminal (r rr : RunM) (h : RunStep r rr) :
    r.status = RunStatus.queued ∨ r.status = RunStatus.running := by
  cases h with
  | start h0 => exact Or.inl h0
  | finish score t h0 => exact Or.inr h0
  | fail t h0 => exact Or.inr h0

/-- Orchestrator steps preserve the Run invariant. -/
theorem runWF_step (r rr : RunM) (hw : RunWF r) (h : RunStep r rr) :
    RunWF rr := by
  cases h with
  | start h0 =>
    simp only [RunWF] at hw
    have hf : r.finished_at = none := by
      by_contra hne
      have h2 := hw.1.mp hne
      rw [h0] at h2
      rcases h2 with h1 | h1 <;> exact RunStatus.noConfusion h1
    have hs : r.compliance_score = none := by
      by_contra hne
      have h2 := hw.2.mp hne
      rw [h0] at h2
      exact RunStatus.noConfusion h2
    simp [RunWF, hf, hs]
  | finish score t h0 =>
    simp [RunWF]
  | fail t h0 =>
    simp only [RunWF] at hw
    have hs : r.compliance_score = none := by
      by_contra hne
      have h2 := hw.2.mp hne
      rw [h0] at h2
      exact RunStatus.noConfusion h2
    simp [RunWF, hs]

/-- Every reachable Run satisfies the Run invariant. -/
theorem runWF_reachable (r : RunM) (hr : RunReachable r) : RunWF r := by
  induction hr with
  | init id lang mv t => exact runWF_initial id lang mv t
  | step a b _ hstep ih => exact runWF_step a b ih hstep

/-- Every Orchestrator step strictly increases the status rank. -/
theorem runStep_rank_increases (r rr : RunM) (h : RunStep r rr) :
    statusRank r.status < statusRank rr.status := by
  cases h with
  | start h0 => rw [h0]; simp [statusRank]
  | finish score t h0 => rw [h0]; simp [statusRank]
  | fail t h0 => rw [h0]; simp [statusRank]

/-- No Orchestrator step leaves a terminal status. -/
theorem terminal_no_step (r rr : RunM)
    (ht : r.status = RunStatus.done ∨ r.status = RunStatus.failed)
    (h : RunStep r rr) : False := by
  rcases runStep_not_terminal r rr h with h0 | h0 <;>
    rcases ht with h1 | h1 <;> rw [h0] at h1 <;>
    exact RunStatus.noConfusion h1

/-- C2: every reachable Run satisfies `finished_at` set iff status is
`done` or `failed` and `compliance_score` set iff status is `done`
(`RunWF`); every Orchestrator step strictly increases the rank along
`queued → running → terminal` (monotone, never regresses); and no step
leaves a terminal status. -/
theorem run_status_invariants (r rr : RunM) (hr : RunReachable r) :
    RunWF r
    ∧ (RunStep r rr → statusRank r.status < statusRank rr.status)
    ∧ ((r.status = RunStatus.done ∨ r.status = RunStatus.failed) →
        ¬ RunStep r rr) :=
  ⟨runWF_reachable r hr, runStep_rank_increases r rr,
   fun ht hstep => terminal_no_step r rr ht hstep⟩

/-- Witness for C2 along the concrete trace
`sampleRun0 → sampleRun1 → sampleRun2`. -/
theorem run_status_invariants_witness :
    RunWF sampleRun2
    ∧ ¬ RunStep sampleRun2 sampleRun0
    ∧ statusRank sampleRun0.status < statusRank sampleRun1.status := by
  have hreach0 : RunReachable sampleRun0 :=
    RunReachable.init 1 "python" "gpt-stub" 0
  have hstep01 : RunStep sampleRun0 sampleRun1 := RunStep.start sampleRun0 rfl
  have hstep12 : RunStep sampleRun1 sampleRun2 :=
    RunStep.finish sampleRun1 1 5000 rfl
  have hreach2 : RunReachable sampleRun2 :=
    RunReachable.step sampleRun1 sampleRun2
      (RunReachable.step sampleRun0 sampleRun1 hreach0 hstep01) hstep12
  exact ⟨(run_status_invariants sampleRun2 sampleRun0 hreach2).1,
         (run_status_invariants sampleRun2 sampleRun0 hreach2).2.2
           (Or.inl rfl),
         (run_status_invariants sampleRun0 sampleRun1 hreach0).2.1 hstep01⟩

/-- C9: the `refetchInterval` callback also returns the 2000 ms interval
when the query has no data yet, so polling starts before the first
successful status read. -/
theorem useRun_polls_before_first_data : refetchInterval none = some 2000 :=
  rfl

/-- C10: rendering a Run is total over the nullable fields — a non-null
compliance score renders as `round(score * 100)` followed by `%` (a score
of 0 renders as `0%`), the placeholder `—` appears exactly for a null
score, a non-null finish time renders as `round((finished − started)/1000)`
seconds, and `In progress` appears exactly for a null finish time. -/
theorem render_nullable_fields_total (c : ℚ) (x : Option ℚ) (st f : Int)
    (y : Option Int) :
    scoreCell (some c) = toString (jsRound (c * 100)) ++ "%"
    ∧ scoreCell (some 0) = "0%"
    ∧ (scoreCell x = "—" ↔ x = none)
    ∧ durationCell st (some f) =
        toString (jsRound (((f : ℚ) - (st : ℚ)) / 1000)) ++ " s"
    ∧ (durationCell st y = "In progress" ↔ y = none) := by
  refine ⟨rfl, ?_, ?_, rfl, ?_⟩
  · have h : (0 : ℚ) * 100 = 0 := by norm_num
    simp only [scoreCell, h]
    decide
  · cases x with
    | none => simp [scoreCell]
    | some s =>
      simp only [scoreCell]
      constructor
      · intro h
        exact absurd h (append_percent_ne_emdash _)
      · intro h
        exact Option.noConfusion h
  · cases y with
    | none => simp [durationCell]
    | some g =>
      simp only [durationCell]
      constructor
      · intro h
        exact absurd h (append_s_ne_in_progress _)
      · intro h
        exact Option.noConfusion h

/-- Witness for C10 at concrete values: a zero score renders as a
percentage and not as the placeholder; a null score renders as the
placeholder; a null finish time renders as `In progress` and a non-null
one does not. -/
theorem render_nullable_fields_total_witness :
    scoreCell (some 0) ≠ "—"
    ∧ scoreCell none = "—"
    ∧ durationCell 0 none = "In progress"
    ∧ durationCell 0 (some 5000) ≠ "In progress" :=
  ⟨fun h => Option.noConfusion
      ((render_nullable_fields_total 0 (some 0) 0 0 none).2.2.1.mp h),
   (render_nullable_fields_total 0 none 0 0 none).2.2.1.mpr rfl,
   (render_nullable_fields_total 0 none 0 0 none).2.2.2.2.mpr rfl,
   fun h => Option.noConfusion
      ((render_nullable_fields_total 0 none 0 5000 (some 5000)).2.2.2.2.mp h)⟩

/-- A successful modelled `submit` implies both preconditions held and the
created Run is the queued initial Run. -/
theorem submit_ok_characterization (catalog : List PolicyProfileM)
    (p : SubmitPayload) (fid : Nat) (t : Int) (run : RunM)
    (h : submit catalog p fid t = Except.ok run) :
    p.files ≠ [] ∧ p.policy_ids ≠ []
    ∧ (∀ pid ∈ p.policy_ids, ∃ prof ∈ catalog, prof.policy_profile_id = pid)
    ∧ run = initialRun fid (languageStr p.language) "default" t := by
  rw [submit] at h
  split_ifs at h with hf hp hall
  refine ⟨?_, ?_, ?_, ?_⟩
  · intro he
    rw [he] at hf
    simp at hf
  · intro he
    rw [he] at hp
    simp at hp
  · intro pid hmem
    have h2 := List.all_eq_true.mp hall pid hmem
    simp only [List.any_eq_true, beq_iff_eq] at h2
    exact h2
  · exact (Except.ok.inj h).symm

/-- C3: the start operation validates its preconditions before creating
anything — the UI `handleStart` issues no request when the files or
policy lists are empty and posts the payload otherwise, and the modelled
backend `submit` returns a Run only when the files are non-empty and
every policy id resolves to an existing profile, that Run being created
in `queued`; on a violated precondition it returns an error and creates
no Run. -/
theorem submit_validates_preconditions (files : List FileEntry)
    (pids : List String) (lang : Language) (mo : Mode) (rt : Bool)
    (catalog : List PolicyProfileM) (p : SubmitPayload) (fid : Nat)
    (t : Int) :
    ((files = [] ∨ pids = []) → handleStart files pids lang mo rt = none)
    ∧ (files ≠ [] → pids ≠ [] →
        handleStart files pids lang mo rt = some
          { language := lang, mode := mo, run_tests := rt,
            files := files, policy_ids := pids })
    ∧ (∀ run, submit catalog p fid t = Except.ok run →
        p.files ≠ [] ∧ p.policy_ids ≠ []
        ∧ (∀ pid ∈ p.policy_ids,
            ∃ prof ∈ catalog, prof.policy_profile_id = pid)
        ∧ run = initialRun fid (languageStr p.language) "default" t
        ∧ run.status = RunStatus.queued)
    ∧ ((p.files = [] ∨ p.policy_ids = []
        ∨ ∃ pid ∈ p.policy_ids,
            ∀ prof ∈ catalog, prof.policy_profile_id ≠ pid) →
        ∃ e, submit catalog p fid t = Except.error e) := by
  refine ⟨fun h => ?_, fun h1 h2 => ?_, fun run h => ?_, fun h => ?_⟩
  · rcases h with h | h <;> simp [handleStart, h]
  · have hc : ¬ (files.length = 0 ∨ pids.length = 0) := by
      simp only [List.length_eq_zero, not_or]
      exact ⟨h1, h2⟩
    rw [handleStart, if_neg hc]
  · obtain ⟨hf, hp, hres, hrun⟩ :=
      submit_ok_characterization catalog p fid t run h
    exact ⟨hf, hp, hres, hrun, by rw [hrun]; rfl⟩
  · cases hsub : submit catalog p fid t with
    | error e => exact ⟨e, rfl⟩
    | ok run =>
      exfalso
      obtain ⟨hf, hp, hres, _⟩ :=
        submit_ok_characterization catalog p fid t run hsub
      rcases h with h | h | h
      · exact hf h
      · exact hp h
      · obtain ⟨pid, hmem, hnone⟩ := h
        obtain ⟨prof, hprof, heq⟩ := hres pid hmem
        exact hnone prof hprof heq

/-- Witness for C3 at concrete inputs: empty files issue no request,
non-empty inputs post the payload, a resolving payload yields a queued
Run, an unresolvable policy id yields an error. -/
theorem submit_validates_preconditions_witness :
    handleStart [] ["p1"] Language.python Mode.suggest true = none
    ∧ handleStart [sampleFile] ["p1"] Language.python Mode.suggest true =
        some { language := Language.python, mode := Mode.suggest,
               run_tests := true, files := [sampleFile],
               policy_ids := ["p1"] }
    ∧ (samplePayload.files ≠ [] ∧ samplePayload.policy_ids ≠ []
        ∧ (∀ pid ∈ samplePayload.policy_ids,
            ∃ prof ∈ [sampleProfile], prof.policy_profile_id = pid)
        ∧ initialRun 7 "python" "default" 0 =
            initialRun 7 (languageStr samplePayload.language) "default" 0
        ∧ (initialRun 7 "python" "default" 0).status = RunStatus.queued)
    ∧ (∃ e, submit [sampleProfile] sampleUnresolvedPayload 7 0 =
        Except.error e) :=
  ⟨(submit_validates_preconditions [] ["p1"] Language.python Mode.suggest
      true [] samplePayload 0 0).1 (Or.inl rfl),
   (submit_validates_preconditions [sampleFile] ["p1"] Language.python
      Mode.suggest true [] samplePayload 0 0).2.1
      (List.cons_ne_nil _ _) (List.cons_ne_nil _ _),
   (submit_validates_preconditions [] [] Language.python Mode.suggest true
      [sampleProfile] samplePayload 7 0).2.2.1
      (initialRun 7 "python" "default" 0) rfl,
   (submit_validates_preconditions [] [] Language.python Mode.suggest true
      [sampleProfile] sampleUnresolvedPayload 7 0).2.2.2
      (Or.inr (Or.inr ⟨2, List.mem_singleton.mpr rfl, by decide⟩))⟩

/-- C4 counterexample: the wire Run shape carries a `user_id` field that
is not among the Run fields of spec section 3, so the Run shape does not
carry exactly the section 3 fields. -/
theorem run_wire_shape_extra_field :
    "user_id" ∈ runSummaryFields ∧ "user_id" ∉ specRunFields := by
  decide

/-- C4 (amended): the wire Run shape carries exactly the section 3 fields
plus one optional `user_id`; Finding severities are exactly
low/medium/high and Finding statuses exactly open/fixed/ignored; Metric
`before`/`after` are each nullable numbers; Artifact types are exactly
report_html/report_json/patch/log. -/
theorem wire_shapes_match_spec_amended :
    runSummaryFields.erase "user_id" = specRunFields
    ∧ "user_id" ∈ runSummaryFields
    ∧ (∀ s : Severity,
        s = Severity.low ∨ s = Severity.medium ∨ s = Severity.high)
    ∧ (∀ s : RunStatus, s = RunStatus.queued ∨ s = RunStatus.running
        ∨ s = RunStatus.done ∨ s = RunStatus.failed)
    ∧ (∀ s : FindingStatus, s = FindingStatus.open_
        ∨ s = FindingStatus.fixed ∨ s = FindingStatus.ignored)
    ∧ (∀ a : ArtifactType, a = ArtifactType.report_html
        ∨ a = ArtifactType.report_json ∨ a = ArtifactType.patch
        ∨ a = ArtifactType.log)
    ∧ (∀ m : Metric,
        (m.before = none ∨ ∃ q, m.before = some q)
        ∧ (m.after = none ∨ ∃ q, m.after = some q)) := by
  refine ⟨by decide, by decide, ?_, ?_, ?_, ?_, ?_⟩
  · intro s
    cases s <;> simp
  · intro s
    cases s <;> simp
  · intro s
    cases s <;> simp
  · intro a
    cases a <;> simp
  · intro m
    constructor
    · cases hm : m.before with
      | none => exact Or.inl rfl
      | some q => exact Or.inr ⟨q, rfl⟩
    · cases hm : m.after with
      | none => exact Or.inl rfl
      | some q => exact Or.inr ⟨q, rfl⟩

/-- The weighted violation count is non-negative. -/
theorem findingsWeight_nonneg (fs : List Severity) : 0 ≤ findingsWeight fs := by
  refine List.sum_nonneg ?_
  intro x hx
  obtain ⟨s, _, rfl⟩ := List.mem_map.mp hx
  cases s <;> norm_num [severityWeight]

/-- C5 counterexample: with before findings `[low]` (weight 1) and after
findings `[high]` (weight 3) the spec formula gives `1 − 3/1 = −2`, so
`policy_score` does not lie in `[0, 1]` for every before/after pair. -/
theorem policy_score_below_zero :
    policy_score [Severity.low] [Severity.high] < 0 := by
  have hb : findingsWeight [Severity.low] = 1 := by
    simp [findingsWeight, severityWeight]
  have ha : findingsWeight [Severity.high] = 3 := by
    simp [findingsWeight, severityWeight]
  rw [policy_score, if_pos (by rw [hb]; norm_num), hb, ha]
  norm_num

/-- C5 (amended): `policy_score` equals `1 − after_weight/before_weight`
when `before_weight > 0` and `1` otherwise; it lies in `[0, 1]` whenever
the weighted violation count does not increase; it equals 1 when there
are zero after-violations; and it is monotonically non-decreasing as the
weighted violation count decreases. -/
theorem policy_score_amended (b a c : List Severity) :
    (0 < findingsWeight b →
      policy_score b a = 1 - findingsWeight a / findingsWeight b)
    ∧ (findingsWeight b = 0 → policy_score b a = 1)
    ∧ (findingsWeight a ≤ findingsWeight b →
        0 ≤ policy_score b a ∧ policy_score b a ≤ 1)
    ∧ (a = [] → policy_score b a = 1)
    ∧ (findingsWeight c ≤ findingsWeight a →
        policy_score b a ≤ policy_score b c) := by
  refine ⟨fun h => ?_, fun h => ?_, fun h => ?_, fun h => ?_, fun h => ?_⟩
  · rw [policy_score, if_pos h]
  · rw [policy_score, if_neg (by rw [h]; exact lt_irrefl 0)]
  · by_cases hb : 0 < findingsWeight b
    · rw [policy_score, if_pos hb]
      constructor
      · have h1 : findingsWeight a / findingsWeight b ≤ 1 :=
          (div_le_one hb).mpr h
        linarith
      · have h0 : 0 ≤ findingsWeight a / findingsWeight b :=
          div_nonneg (findingsWeight_nonneg a) (le_of_lt hb)
        linarith
    · rw [policy_score, if_neg hb]
      norm_num
  · subst h
    have ha0 : findingsWeight ([] : List Severity) = 0 := by
      simp [findingsWeight]
    by_cases hb : 0 < findingsWeight b
    · rw [policy_score, if_pos hb, ha0]
      norm_num
    · rw [policy_score, if_neg hb]
  · by_cases hb : 0 < findingsWeight b
    · rw [policy_score, policy_score, if_pos hb, if_pos hb]
      have h1 : findingsWeight c / findingsWeight b ≤
          findingsWeight a / findingsWeight b :=
        (div_le_div_iff_of_pos_right hb).mpr h
      linarith
    · rw [policy_score, policy_score, if_neg hb, if_neg hb]

/-- Witness for C5 (amended) at concrete finding lists. -/
theorem policy_score_amended_witness :
    policy_score [Severity.low] [] = 1
    ∧ (0 ≤ policy_score [Severity.low] []
        ∧ policy_score [Severity.low] [] ≤ 1)
    ∧ policy_score [Severity.low] [Severity.low] ≤
        policy_score [Severity.low] [] := by
  have h1 : findingsWeight ([] : List Severity) ≤
      findingsWeight [Severity.low] := by
    simp [findingsWeight, severityWeight]
  exact ⟨(policy_score_amended [Severity.low] [] []).2.2.2.1 rfl,
         (policy_score_amended [Severity.low] [] []).2.2.1 h1,
         (policy_score_amended [Severity.low] [Severity.low] []).2.2.2.2 h1⟩

/-- C6: the legacy single-snippet synchronous refactor is one POST to
`/refactor` whose request carries one code blob and one policy profile
id, and whose inline result shape carries the Compliance Summary (with
exactly the five section 4.4 components), the suggestions, the
violations, and both original and refactored code. -/
theorem legacy_refactor_inline :
    useRefactorCall.method = HttpMethod.post
    ∧ useRefactorCall.path = "/refactor"
    ∧ "code" ∈ refactorRequestFields
    ∧ "policy_profile_id" ∈ refactorRequestFields
    ∧ (∀ x ∈ specRefactorResultRequired, x ∈ refactorResultFields)
    ∧ complianceSummaryFields = specComplianceSummaryFields := by
  refine ⟨rfl, rfl, by decide, by decide, by decide, rfl⟩

/-- Every list element is bounded by the max fold. -/
theorem le_foldr_max (l : List Nat) (x : Nat) (hx : x ∈ l) :
    x ≤ l.foldr max 0 := by
  induction l with
  | nil => cases hx
  | cons a t ih =>
    rcases List.mem_cons.mp hx with rfl | hx2
    · exact le_max_left _ _
    · exact le_trans (ih hx2) (le_max_right _ _)

/-- The generated id is fresh: it occurs nowhere in the list. -/
theorem freshNat_not_mem (l : List Nat) : freshNat l ∉ l := by
  intro hmem
  have h1 := le_foldr_max l (freshNat l) hmem
  simp only [freshNat] at h1
  omega

/-- C7: for every valid policy document, import succeeds, appends exactly
one new PolicyProfile whose id is freshly generated (absent from the
store), and the response is `{policy_profile_id, name}` — the wire
response type carries exactly those two fields. -/
theorem import_policy_fresh (store : List PolicyProfileM)
    (doc : PolicyDocument) (t : Int) (h : validateDoc doc = true) :
    ∃ pid,
      importPolicy store doc t = Except.ok
        (store ++ [{ policy_profile_id := pid, name := doc.name,
                     language := doc.domain, version := doc.version,
                     rules := doc.rules, created_at := t }],
         { policy_profile_id := pid, name := doc.name })
      ∧ pid ∉ store.map (fun p => p.policy_profile_id)
      ∧ importPolicyResponseFields = ["name", "policy_profile_id"] := by
  refine ⟨freshNat (store.map (fun p => p.policy_profile_id)), ?_, ?_, rfl⟩
  · rw [importPolicy, if_pos h]
  · exact freshNat_not_mem _

/-- Witness for C7: importing the sample document into a one-profile
store. -/
theorem import_policy_fresh_witness :
    ∃ pid,
      importPolicy [sampleProfile] sampleDoc 0 = Except.ok
        ([sampleProfile] ++
          [{ policy_profile_id := pid, name := sampleDoc.name,
             language := sampleDoc.domain, version := sampleDoc.version,
             rules := sampleDoc.rules, created_at := 0 }],
         { policy_profile_id := pid, name := sampleDoc.name })
      ∧ pid ∉ [sampleProfile].map (fun p => p.policy_profile_id)
      ∧ importPolicyResponseFields = ["name", "policy_profile_id"] :=
  import_policy_fresh [sampleProfile] sampleDoc 0 (by decide)

/-- C8: every Suggestion produced by the stub Transform Adapter has a
confidence score in the closed interval `[0, 1]`. -/
theorem stub_confidence_in_unit (code : String) (fs : List Finding)
    (s : SuggestionM) (h : s ∈ (stubPropose code fs).2) :
    0 ≤ s.confidence_score ∧ s.confidence_score ≤ 1 := by
  obtain ⟨f, hf, rfl⟩ := List.mem_map.mp h
  refine ⟨?_, ?_⟩ <;> simp

/-- Witness for C8 at the sample finding. -/
theorem stub_confidence_in_unit_witness :
    0 ≤ sampleSuggestion.confidence_score
    ∧ sampleSuggestion.confidence_score ≤ 1 :=
  stub_confidence_in_unit "x = 1" [sampleFinding] sampleSuggestion
    (List.mem_singleton.mpr rfl)

end ACC
